import Mathlib

set_option maxRecDepth 40000

/-!
Verification of the staged survey-generation pipeline.

The pipeline's Python sources are embedded shallowly: Python strings become
`List Char`, every string primitive used by the code (strip, split, slicing,
regex tag removal, substring search) is given an executable Lean definition
with the same semantics on the inputs the code feeds it, and each stage's
propose-validate-correct loop becomes a function over the list of model
responses it would consume.
-/

/-- Python strings are modelled as lists of characters. -/
abbrev Str := List Char

/-- Whitespace characters recognised by Python's `str.strip` and `str.split`
for the ASCII texts this pipeline handles. -/
def isPySpace (c : Char) : Bool :=
  c = ' ' || c = '\t' || c = '\n' || c = '\r' || c = '\x0b' || c = '\x0c'

/-- Python `s.strip()`: drop whitespace from both ends. -/
def pyStrip (s : Str) : Str :=
  ((s.dropWhile isPySpace).reverse.dropWhile isPySpace).reverse

/-- Python `s.startswith(pat)`. -/
def startsW (pat : String) (s : Str) : Bool :=
  pat.toList.isPrefixOf s

/-- Python `s.endswith(pat)`. -/
def endsW (pat : String) (s : Str) : Bool :=
  pat.toList.isSuffixOf s

/-- Python `s[a:-b]`: drop `a` leading and `b` trailing characters
(empty when fewer than `a + b` characters remain). -/
def pySlice (a b : ℕ) (s : Str) : Str :=
  (s.drop a).take (s.length - a - b)

/-- Helper for Python `s.split(sep)` with a one-character separator:
accumulates the current chunk in reverse. -/
def splitCharSepAux (sep : Char) : Str → Str → List Str
  | [], acc => [acc.reverse]
  | c :: rest, acc =>
    if c = sep then acc.reverse :: splitCharSepAux sep rest []
    else splitCharSepAux sep rest (c :: acc)

/-- Python `s.split(sep)` for a one-character separator (keeps empty chunks). -/
def splitCharSep (sep : Char) (s : Str) : List Str :=
  splitCharSepAux sep s []

/-- Helper for Python `s.split('\n\n')`: scans for two consecutive newlines,
taking each non-overlapping occurrence left to right. -/
def splitParaAux : Str → Str → List Str
  | [], acc => [acc.reverse]
  | [c], acc => [(c :: acc).reverse]
  | c1 :: c2 :: rest, acc =>
    if c1 = '\n' ∧ c2 = '\n' then acc.reverse :: splitParaAux rest []
    else splitParaAux (c2 :: rest) (c1 :: acc)

/-- Python `s.split('\n\n')` (keeps empty chunks). -/
def splitPara (s : Str) : List Str :=
  splitParaAux s []

/-- Helper for Python `s.split()` (no argument): split on whitespace runs,
discarding empty chunks. -/
def splitWsAux : Str → Str → List Str
  | [], acc => if acc.isEmpty then [] else [acc.reverse]
  | c :: rest, acc =>
    if isPySpace c then
      if acc.isEmpty then splitWsAux rest [] else acc.reverse :: splitWsAux rest []
    else splitWsAux rest (c :: acc)

/-- Python `s.split()` with no argument. -/
def pySplitWs (s : Str) : List Str :=
  splitWsAux s []

/-- Whether `pat` occurs as a contiguous substring of `s`
(the semantics of `re.search` for a literal pattern). -/
def hasSub (pat : Str) : Str → Bool
  | [] => pat.isPrefixOf []
  | c :: rest => pat.isPrefixOf (c :: rest) || hasSub pat rest

/-- Fuel-indexed scanner for Python `re.sub(t1 + "|" + t2, "", s)` with two
literal alternatives: at each position the first matching alternative is
deleted and scanning resumes after it.  The fuel only serves as a structural
termination measure; `s.length` units always suffice because every step
consumes at least one character of `s`. -/
def reSubTagsFuel (t1 t2 : Str) : ℕ → Str → Str
  | _, [] => []
  | 0, s => s
  | fuel + 1, c :: rest =>
    if t1 ≠ [] ∧ t1.isPrefixOf (c :: rest) then
      reSubTagsFuel t1 t2 fuel ((c :: rest).drop t1.length)
    else if t2 ≠ [] ∧ t2.isPrefixOf (c :: rest) then
      reSubTagsFuel t1 t2 fuel ((c :: rest).drop t2.length)
    else
      c :: reSubTagsFuel t1 t2 fuel rest

/-- Python `re.sub(t1 + "|" + t2, "", s)` for two literal alternatives. -/
def reSubTags (t1 t2 : Str) (s : Str) : Str :=
  reSubTagsFuel t1 t2 s.length s

/-- Whether a citation tag matching the regex `[<digits>]` begins exactly at
the head of `s`. -/
def citesAt : Str → Bool
  | '[' :: rest =>
    (match rest.takeWhile Char.isDigit, rest.dropWhile Char.isDigit with
     | [], _ => false
     | _ :: _, ']' :: _ => true
     | _ :: _, _ => false)
  | _ => false

/-- Python `re.search(r"\[\d+\]", s)`: a citation tag occurs somewhere in `s`. -/
def hasCitation : Str → Bool
  | [] => false
  | c :: rest => citesAt (c :: rest) || hasCitation rest

/-- The list comprehension `[l.strip() for l in s.split('\n') if l.strip()]`
used throughout the pipeline to turn a block of text into its non-blank
stripped lines. -/
def nonblankStrippedLines (s : Str) : List Str :=
  ((splitCharSep '\n' s).map pyStrip).filter (fun l => !l.isEmpty)

/- ## Title stage (src/title.py) -/

/-- The Title artifact persisted by `TitleAgent._save_title`:
a JSON record with the paper id and the title value. -/
structure TitleArtifact where
  paper_id : Str
  title : Str
deriving DecidableEq, Repr

/-- The check `TitleAgent._verify_title_format`: `re.match` of the anchored
pattern `<title>` `.*` `</title>` against the stripped title, where `.`
does not match a newline.  Equivalently: the stripped value starts with the
opening marker, ends with the closing marker, is long enough for the two
markers not to overlap, and has no newline between them. -/
def verifyTitleFormat (title : Str) : Bool :=
  startsW "<title>" (pyStrip title) && endsW "</title>" (pyStrip title) &&
  decide (15 ≤ (pyStrip title).length) && !((pySlice 7 8 (pyStrip title)).contains '\n')

/-- The retry loop of `TitleAgent._get_title_from_gpt` run against a list of
model responses: each response is stripped and the first one passing
`_verify_title_format` is returned as-is, markers included.  `none` means the
loop is still awaiting further responses (the source loop is unbounded). -/
def getTitleFromGpt : List Str → Option Str
  | [] => none
  | r :: rest =>
    if verifyTitleFormat (pyStrip r) then some (pyStrip r) else getTitleFromGpt rest

/-- One successful Title stage run for one paper, as `TitleAgent.process_folder`
performs it: the value returned by `_get_title_from_gpt` is stored verbatim
by `_save_title`. -/
def runTitleStage (pid : Str) (responses : List Str) : Option TitleArtifact :=
  match getTitleFromGpt responses with
  | some t => some { paper_id := pid, title := t }
  | none => none

def c1Response : Str := "<title>A Survey of X</title>".toList

/-- Claim C1 counterexample: for paper 9901.001 and the model response
with text A Survey of X wrapped in title markers, the stored Title artifact
keeps the markers: its title field equals the full tagged response, which
differs from the bare text the claim says is stored. -/
theorem title_stage_cex :
    runTitleStage "9901.001".toList [c1Response] =
      some { paper_id := "9901.001".toList, title := c1Response } ∧
    c1Response ≠ "A Survey of X".toList := by
  decide

/-- Claim C1 (amended): for every run of the Title stage that succeeds for a
paper, the stored title equals the whitespace-stripped model response verbatim,
markers included: it satisfies the title format check (so it begins with the
opening marker and ends with the closing marker) and is non-empty. -/
theorem title_stage_amended :
    ∀ (responses : List Str) (pid : Str) (a : TitleArtifact),
      runTitleStage pid responses = some a →
      a.paper_id = pid ∧ verifyTitleFormat a.title = true ∧ a.title ≠ [] ∧
        ∃ r, r ∈ responses ∧ a.title = pyStrip r := by
  intro responses
  induction responses with
  | nil =>
    intro pid a h
    simp [runTitleStage, getTitleFromGpt] at h
  | cons r rest ih =>
    intro pid a h
    by_cases hv : verifyTitleFormat (pyStrip r) = true
    · have hred : runTitleStage pid (r :: rest) =
          some { paper_id := pid, title := pyStrip r } := by
        show (match (if verifyTitleFormat (pyStrip r) then some (pyStrip r)
                     else getTitleFromGpt rest) with
              | some t => some ({ paper_id := pid, title := t } : TitleArtifact)
              | none => none) = _
        rw [if_pos hv]
      rw [hred] at h
      obtain rfl := Option.some.inj h
      refine ⟨rfl, hv, ?_, r, List.mem_cons_self r rest, rfl⟩
      intro hnil
      have hnil' : pyStrip r = [] := hnil
      rw [hnil'] at hv
      exact absurd hv (by decide)
    · have hred : runTitleStage pid (r :: rest) = runTitleStage pid rest := by
        show (match (if verifyTitleFormat (pyStrip r) then some (pyStrip r)
                     else getTitleFromGpt rest) with
              | some t => some ({ paper_id := pid, title := t } : TitleArtifact)
              | none => none) = _
        rw [if_neg hv]
        rfl
      rw [hred] at h
      obtain ⟨h1, h2, h3, rr, hmem, heq⟩ := ih pid a h
      exact ⟨h1, h2, h3, rr, List.mem_cons_of_mem r hmem, heq⟩

/-- Witness for the amended Claim C1 theorem at a concrete successful run. -/
theorem title_stage_amended_w :
    ∃ a : TitleArtifact,
      runTitleStage "9901.001".toList [c1Response] = some a ∧
      a.paper_id = "9901.001".toList ∧ verifyTitleFormat a.title = true ∧ a.title ≠ [] := by
  refine ⟨{ paper_id := "9901.001".toList, title := c1Response }, by decide, ?_⟩
  have h := title_stage_amended [c1Response] "9901.001".toList
    { paper_id := "9901.001".toList, title := c1Response } (by decide)
  exact ⟨h.1, h.2.1, h.2.2.1⟩

/- ## Abstract stage (src/abstract.py) -/

/-- The Abstract artifact persisted by `AbstractAgent._save_abstract`. -/
structure AbstractArtifact where
  paper_id : Str
  abstract : Str
deriving DecidableEq, Repr

/-- The word count computed by `AbstractAgent._verify_abstract_format`:
all occurrences of the abstract markers are deleted by
`re.sub(r'<abstract>|</abstract>', '', abstract)`, the result is stripped and
split on whitespace, and the chunks are counted. -/
def storedAbstractWordCount (s : Str) : ℕ :=
  (pySplitWs (pyStrip (reSubTags "<abstract>".toList "</abstract>".toList s))).length

/-- The check `AbstractAgent._verify_abstract_format`: the value starts with
the opening marker, ends with the closing marker, and the word count of the
value with the markers removed lies in the range 200 to 500. -/
def verifyAbstractFormat (abstract : Str) : Bool :=
  startsW "<abstract>" abstract && endsW "</abstract>" abstract &&
  (decide (200 ≤ storedAbstractWordCount abstract) &&
   decide (storedAbstractWordCount abstract ≤ 500))

/-- The retry loop of `AbstractAgent._get_abstract_from_gpt` run against a list
of model call outcomes: a `some r` outcome is a returned response, which is
stripped and kept when it passes `_verify_abstract_format`; a `none` outcome is
an exception raised by the model collaborator, on which the surrounding
`try`/`except` returns the empty string.  The overall `none` means the
unbounded loop is still awaiting further responses. -/
def getAbstractFromGpt : List (Option Str) → Option Str
  | [] => none
  | none :: _ => some []
  | some r :: rest =>
    if verifyAbstractFormat (pyStrip r) then some (pyStrip r) else getAbstractFromGpt rest

/-- One Abstract stage run for one paper, as `AbstractAgent.process_papers`
performs it: the returned value is persisted by `_save_abstract` only when it
is truthy (non-empty). -/
def runAbstractStage (pid : Str) (responses : List (Option Str)) : Option AbstractArtifact :=
  match getAbstractFromGpt responses with
  | some a => if a = [] then none else some { paper_id := pid, abstract := a }
  | none => none

/-- The per-paper step of `AbstractAgent.process_papers` acting on the abstract
artifact store, modelled as a map from paper id to stored abstract: the file
write happens only when the stage returned a truthy value. -/
def processAbstractPaper (store : Str → Option Str) (pid : Str)
    (responses : List (Option Str)) : Str → Option Str :=
  match getAbstractFromGpt responses with
  | none => store
  | some a => if a = [] then store else fun q => if q = pid then some a else store q

/-- The paper loop of `AbstractAgent.process_papers`: papers are processed in
order, each one updating the artifact store. -/
def processAbstractPapers (store : Str → Option Str) :
    List (Str × List (Option Str)) → (Str → Option Str)
  | [] => store
  | (pid, rs) :: more => processAbstractPapers (processAbstractPaper store pid rs) more

def c2Words : Str := List.intercalate [' '] (List.replicate 200 ['w'])

def c2Response : Str := "<abstract>".toList ++ c2Words ++ "</abstract>".toList

/-- Claim C2 counterexample: a 200-word model response wrapped in abstract
markers passes verification and is persisted verbatim, so the stored value
still contains the opening marker, contradicting the claim that no wrapping
markers remain in the stored value. -/
theorem abstract_stage_cex :
    runAbstractStage "9901.001".toList [some c2Response] =
      some { paper_id := "9901.001".toList, abstract := c2Response } ∧
    hasSub "<abstract>".toList c2Response = true := by
  decide

/-- Claim C2 (amended): for every persisted Abstract artifact produced by a
successful Abstract stage run, the stored value retains the wrapping markers
(it starts with the opening marker and ends with the closing marker, being the
stripped model response verbatim), and the word count of the stored value with
the marker occurrences removed is between 200 and 500 inclusive. -/
theorem abstract_stage_amended :
    ∀ (responses : List (Option Str)) (pid : Str) (a : AbstractArtifact),
      runAbstractStage pid responses = some a →
      a.paper_id = pid ∧ startsW "<abstract>" a.abstract = true ∧
        endsW "</abstract>" a.abstract = true ∧
        200 ≤ storedAbstractWordCount a.abstract ∧
        storedAbstractWordCount a.abstract ≤ 500 ∧
        ∃ r, some r ∈ responses ∧ a.abstract = pyStrip r := by
  intro responses
  induction responses with
  | nil =>
    intro pid a h
    exact Option.noConfusion h
  | cons ro rest ih =>
    intro pid a h
    match ro with
    | none =>
      have hred : runAbstractStage pid (none :: rest) = none := rfl
      rw [hred] at h
      exact Option.noConfusion h
    | some r =>
      by_cases hv : verifyAbstractFormat (pyStrip r) = true
      · have hne : pyStrip r ≠ [] := by
          intro hnil
          rw [hnil] at hv
          exact absurd hv (by decide)
        have hred : runAbstractStage pid (some r :: rest) =
            some { paper_id := pid, abstract := pyStrip r } := by
          show (match (if verifyAbstractFormat (pyStrip r) then some (pyStrip r)
                       else getAbstractFromGpt rest) with
                | some a =>
                  if a = [] then none
                  else some ({ paper_id := pid, abstract := a } : AbstractArtifact)
                | none => none) = _
          rw [if_pos hv]
          exact if_neg hne
        rw [hred] at h
        obtain rfl := Option.some.inj h
        have hv' := hv
        simp only [verifyAbstractFormat, Bool.and_eq_true, decide_eq_true_eq] at hv'
        exact ⟨rfl, hv'.1.1, hv'.1.2, hv'.2.1, hv'.2.2,
          r, List.mem_cons_self (some r) rest, rfl⟩
      · have hred : runAbstractStage pid (some r :: rest) = runAbstractStage pid rest := by
          show (match (if verifyAbstractFormat (pyStrip r) then some (pyStrip r)
                       else getAbstractFromGpt rest) with
                | some a =>
                  if a = [] then none
                  else some ({ paper_id := pid, abstract := a } : AbstractArtifact)
                | none => none) = _
          rw [if_neg hv]
          rfl
        rw [hred] at h
        obtain ⟨h1, h2, h3, h4, h5, rr, hmem, heq⟩ := ih pid a h
        exact ⟨h1, h2, h3, h4, h5, rr, List.mem_cons_of_mem (some r) hmem, heq⟩

/-- Witness for the amended Claim C2 theorem at a concrete successful run. -/
theorem abstract_stage_amended_w :
    ∃ a : AbstractArtifact,
      runAbstractStage "9901.001".toList [some c2Response] = some a ∧
      startsW "<abstract>" a.abstract = true ∧
      200 ≤ storedAbstractWordCount a.abstract := by
  refine ⟨{ paper_id := "9901.001".toList, abstract := c2Response }, by decide, ?_⟩
  have h := abstract_stage_amended [some c2Response] "9901.001".toList
    { paper_id := "9901.001".toList, abstract := c2Response } (by decide)
  exact ⟨h.2.1, h.2.2.2.1⟩

/-- Claim C10: when the model collaborator raises during the Abstract stage
for a paper — at any point of the retry loop, that is after any number of
format-failing responses — `_get_abstract_from_gpt` returns the empty string,
the store of Abstract artifacts is left unchanged for every paper id (no file
is written or overwritten), and the paper loop continues with the remaining
papers. -/
theorem abstract_model_failure_no_write :
    ∀ (pre : List Str) (store : Str → Option Str) (pid : Str) (rs : List (Option Str))
      (more : List (Str × List (Option Str))),
      (∀ x ∈ pre, verifyAbstractFormat (pyStrip x) = false) →
      getAbstractFromGpt (pre.map some ++ (none :: rs)) = some [] ∧
      processAbstractPaper store pid (pre.map some ++ (none :: rs)) = store ∧
      processAbstractPapers store ((pid, pre.map some ++ (none :: rs)) :: more) =
        processAbstractPapers store more := by
  intro pre store pid rs more hall
  have hg : ∀ (p : List Str), (∀ x ∈ p, verifyAbstractFormat (pyStrip x) = false) →
      getAbstractFromGpt (p.map some ++ (none :: rs)) = some [] := by
    intro p
    induction p with
    | nil => intro _; rfl
    | cons x rest ih =>
      intro hall2
      have hx : verifyAbstractFormat (pyStrip x) = false :=
        hall2 x (List.mem_cons_self x rest)
      show (if verifyAbstractFormat (pyStrip x) then some (pyStrip x)
            else getAbstractFromGpt (rest.map some ++ (none :: rs))) = some []
      rw [if_neg (by simp [hx])]
      exact ih (fun y hy => hall2 y (List.mem_cons_of_mem x hy))
  have h1 := hg pre hall
  have h2 : processAbstractPaper store pid (pre.map some ++ (none :: rs)) = store := by
    show (match getAbstractFromGpt (pre.map some ++ (none :: rs)) with
          | none => store
          | some a =>
            if a = [] then store else fun q => if q = pid then some a else store q) = store
    rw [h1]
    rfl
  refine ⟨h1, h2, ?_⟩
  show processAbstractPapers
      (processAbstractPaper store pid (pre.map some ++ (none :: rs))) more =
    processAbstractPapers store more
  rw [h2]

def badAbsResp : Str := "Too short".toList

/-- Witness for the Claim C10 theorem: two format-failing responses followed
by a model exception leave the store untouched and yield the empty return. -/
theorem abstract_model_failure_no_write_w :
    processAbstractPaper (fun _ => none) "9901.001".toList
        ([badAbsResp, badAbsResp].map some ++ (none :: [])) = (fun _ => none) ∧
    getAbstractFromGpt ([badAbsResp, badAbsResp].map some ++ (none :: [])) = some [] := by
  have h := abstract_model_failure_no_write [badAbsResp, badAbsResp] (fun _ => none)
    "9901.001".toList [] [] (by decide)
  exact ⟨h.2.1, h.1⟩

/- ## Outline stage (src/outline.py) -/

/-- The Outline artifact persisted by `OutlineAgent._save_outline`. -/
structure OutlineArtifact where
  paper_id : Str
  sections : List Str
deriving DecidableEq, Repr

/-- The section extraction used by `_get_outline_from_gpt`, `_save_outline`
and `process_folder` alike: the non-blank stripped lines of the outline. -/
def outlineSections (outline : Str) : List Str :=
  nonblankStrippedLines outline

/-- The count check inlined in `OutlineAgent._get_outline_from_gpt` (the same
computation as `_verify_outline_format`): the outline has between 6 and 10
non-blank lines, counting reserved headings and any tag lines. -/
def verifyOutlineCount (outline : Str) : Bool :=
  decide (6 ≤ (outlineSections outline).length) &&
  decide ((outlineSections outline).length ≤ 10)

/-- `OutlineAgent._get_outline_from_gpt`: one model call; when the count check
fails, exactly one correction call is issued and its stripped response is
returned without being re-checked. -/
def getOutlineFromGpt (r1 r2 : Str) : Str :=
  if verifyOutlineCount (pyStrip r1) then pyStrip r1 else pyStrip r2

/-- One Outline stage run for one paper, as `OutlineAgent.process_folder`
performs it, persisted by `_save_outline`. -/
def runOutlineStage (pid r1 r2 : Str) : OutlineArtifact :=
  { paper_id := pid, sections := outlineSections (getOutlineFromGpt r1 r2) }

/-- Whether a heading is one of the two reserved headings, as tested by the
membership checks `section not in ['Introduction', 'Conclusion']`. -/
def isReserved (s : Str) : Bool :=
  s == "Introduction".toList || s == "Conclusion".toList

def c4First : Str := "Deep Learning".toList

def c4Second : Str := "Alpha\nBeta\nGamma\nDelta\nEpsilon".toList

/-- Claim C4 counterexample: when the first response has one line the check
fails, and the second response is persisted unchecked; with a five-line second
response the persisted outline has 5 sections even after excluding reserved
headings, outside the claimed range of 6 to 10. -/
theorem outline_stage_cex :
    ((runOutlineStage "9901.001".toList c4First c4Second).sections.filter
        (fun s => !(isReserved s))).length = 5 ∧
    ¬(6 ≤ ((runOutlineStage "9901.001".toList c4First c4Second).sections.filter
        (fun s => !(isReserved s))).length) := by
  decide

/-- Claim C4 (amended): the Outline stage checks that the total number of
non-blank lines of the first response, reserved headings included, is between
6 and 10, in which case that response is persisted and the bound holds of the
stored sections; when the first response fails the check, the stage issues
exactly one correction call and persists the second response without
re-checking, so a violating outline can be persisted. -/
theorem outline_stage_amended :
    ∀ (pid r1 r2 : Str),
      (verifyOutlineCount (pyStrip r1) = true →
        runOutlineStage pid r1 r2 =
          { paper_id := pid, sections := outlineSections (pyStrip r1) } ∧
        6 ≤ (outlineSections (pyStrip r1)).length ∧
        (outlineSections (pyStrip r1)).length ≤ 10) ∧
      (verifyOutlineCount (pyStrip r1) = false →
        runOutlineStage pid r1 r2 =
          { paper_id := pid, sections := outlineSections (pyStrip r2) }) := by
  intro pid r1 r2
  constructor
  · intro hv
    have hb := hv
    simp only [verifyOutlineCount, Bool.and_eq_true, decide_eq_true_eq] at hb
    refine ⟨?_, hb.1, hb.2⟩
    unfold runOutlineStage getOutlineFromGpt
    rw [if_pos hv]
  · intro hv
    unfold runOutlineStage getOutlineFromGpt
    rw [if_neg (by simp [hv])]

def c4Ok : Str := "Alpha\nBeta\nGamma\nDelta\nEpsilon\nZeta".toList

/-- Witness for the amended Claim C4 theorem: a passing first response is
persisted, and a failing first response hands the second response through. -/
theorem outline_stage_amended_w :
    runOutlineStage "9901.001".toList c4Ok c4Second =
      { paper_id := "9901.001".toList, sections := outlineSections (pyStrip c4Ok) } ∧
    runOutlineStage "9901.002".toList c4First c4Second =
      { paper_id := "9901.002".toList, sections := outlineSections (pyStrip c4Second) } := by
  constructor
  · exact ((outline_stage_amended "9901.001".toList c4Ok c4Second).1 (by decide)).1
  · exact (outline_stage_amended "9901.002".toList c4First c4Second).2 (by decide)

/- ## Content stage (src/content.py) -/

/-- The payload extraction `content[9:-10].strip()` used both inside
`_verify_content_format` and in `ContentAgent.process_papers`. -/
def contentText (content : Str) : Str :=
  pyStrip (pySlice 9 10 content)

/-- The paragraph extraction of `_verify_content_format`:
`[p.strip() for p in text.split('\n\n') if p.strip()]`. -/
def contentParagraphs (text : Str) : List Str :=
  ((splitPara text).map pyStrip).filter (fun p => !p.isEmpty)

/-- The check `ContentAgent._verify_content_format`: wrapped in content
markers, at least 3 blank-line-separated paragraphs, at least 500 words, and
at least one citation tag. -/
def verifyContentFormat (content : Str) : Bool :=
  startsW "<content>" content && endsW "</content>" content &&
  (decide (3 ≤ (contentParagraphs (contentText content)).length) &&
   decide (500 ≤ (pySplitWs (contentText content)).length) &&
   hasCitation (contentText content))

/-- The bounded retry loop of `ContentAgent._get_content` run against its
three attempts: the first stripped response passing the check is returned;
when all three fail, the last stripped response is returned as-is. -/
def getContent (r0 r1 r2 : Str) : Str :=
  if verifyContentFormat (pyStrip r0) then pyStrip r0
  else if verifyContentFormat (pyStrip r1) then pyStrip r1
  else if verifyContentFormat (pyStrip r2) then pyStrip r2
  else pyStrip r2

/-- The per-subsection step of `ContentAgent.process_papers`: when the
returned content is truthy, the fixed-offset payload `content[9:-10].strip()`
is stored for the subsection. -/
def processContentSubsection (r0 r1 r2 : Str) : Option Str :=
  if getContent r0 r1 r2 = [] then none
  else some (pyStrip (pySlice 9 10 (getContent r0 r1 r2)))

/-- Claim C5: when all three Content attempts fail the check and the final
stripped response is non-empty, the stage persists the payload extracted from
that final response anyway, rather than failing or discarding it. -/
theorem content_exhaustion_persists :
    ∀ r0 r1 r2 : Str,
      verifyContentFormat (pyStrip r0) = false →
      verifyContentFormat (pyStrip r1) = false →
      verifyContentFormat (pyStrip r2) = false →
      pyStrip r2 ≠ [] →
      processContentSubsection r0 r1 r2 = some (pyStrip (pySlice 9 10 (pyStrip r2))) := by
  intro r0 r1 r2 h0 h1 h2 hne
  have hg : getContent r0 r1 r2 = pyStrip r2 := by
    unfold getContent
    rw [if_neg (by simp [h0]), if_neg (by simp [h1]), if_neg (by simp [h2])]
  unfold processContentSubsection
  rw [hg, if_neg hne]

def c5Para : Str := List.intercalate [' '] (List.replicate 133 ['w'])

def c5Body : Str := c5Para ++ ('\n' :: '\n' :: c5Para) ++ ('\n' :: '\n' :: c5Para) ++ " [1]".toList

def c5Response : Str := "<content>".toList ++ c5Body ++ "</content>".toList

/-- Witness for the Claim C5 theorem: a well-formed content block with three
paragraphs, a citation and only 400 words fails the word-count check on all
three attempts, and its sliced payload is persisted regardless. -/
theorem content_exhaustion_persists_w :
    processContentSubsection c5Response c5Response c5Response =
      some (pyStrip (pySlice 9 10 (pyStrip c5Response))) :=
  content_exhaustion_persists c5Response c5Response c5Response
    (by decide) (by decide) (by decide) (by decide)

/- ## Reference-Selection stage (src/referenceselection.py, src/CoTreferenceselection.py) -/

/-- The per-line check of `_verify_refs_format`: the line starts with an
asterisk and contains a citation tag. -/
def refLineOk (l : Str) : Bool :=
  startsW "*" l && hasCitation l

/-- `ReferenceSelectionAgent._verify_refs_format` in the canonical
implementation (referenceselection.py): wrapped in refs markers, and every
non-blank stripped line of the inner text passes the per-line check. -/
def verifyRefsFormat (refs : Str) : Bool :=
  startsW "<refs>" refs && endsW "</refs>" refs &&
  (nonblankStrippedLines (pyStrip (pySlice 6 7 refs))).all refLineOk

/-- The CoT variant's `_verify_refs_format` (CoTreferenceselection.py):
additionally rejects the empty string before the marker checks. -/
def verifyRefsFormatCoT (refs : Str) : Bool :=
  !refs.isEmpty &&
  (startsW "<refs>" refs && endsW "</refs>" refs &&
   (nonblankStrippedLines (pyStrip (pySlice 6 7 refs))).all refLineOk)

/-- Splits `s` at the first occurrence of `pat`, returning the text before
the occurrence and the text after it, or `none` when `pat` never occurs. -/
def splitAtSub (pat : Str) : Str → Option (Str × Str)
  | [] => none
  | c :: rest =>
    if pat.isPrefixOf (c :: rest) then some ([], (c :: rest).drop pat.length)
    else
      match splitAtSub pat rest with
      | some (pre, post) => some (c :: pre, post)
      | none => none

/-- The CoT variant's `_extract_final_refs`: the lazy DOTALL search
`<refs>(.*?)</refs>` takes the text between the first opening marker and the
first closing marker after it and re-wraps its stripped value on its own
lines; when no such pair exists the empty string is returned. -/
def extractFinalRefs (response : Str) : Str :=
  match splitAtSub "<refs>".toList response with
  | none => []
  | some (_, rest) =>
    match splitAtSub "</refs>".toList rest with
    | none => []
    | some (inner, _) =>
      "<refs>".toList ++ '\n' :: (pyStrip inner ++ '\n' :: "</refs>".toList)

/-- The unbounded retry loop of the canonical `_get_refs_for_section`
(referenceselection.py), the implementation `main.py` imports: the first
stripped response passing the check is returned; `none` means the loop is
still awaiting further responses. -/
def getRefsCanonical : List Str → Option Str
  | [] => none
  | r :: rest =>
    if verifyRefsFormat (pyStrip r) then some (pyStrip r) else getRefsCanonical rest

/-- The bounded retry loop of the CoT variant's `_get_refs_for_section`
(CoTreferenceselection.py, not imported by `main.py`): at most 3 attempts,
each extracting the refs block from the stripped response and checking it; on
exhaustion the best-effort extraction from the final response is returned. -/
def getRefsCoT (r0 r1 r2 : Str) : Str :=
  if verifyRefsFormatCoT (extractFinalRefs (pyStrip r0)) then extractFinalRefs (pyStrip r0)
  else if verifyRefsFormatCoT (extractFinalRefs (pyStrip r1)) then extractFinalRefs (pyStrip r1)
  else if verifyRefsFormatCoT (extractFinalRefs (pyStrip r2)) then extractFinalRefs (pyStrip r2)
  else extractFinalRefs (pyStrip r2)

def badRefsResp : Str := "I could not find suitable references".toList

def goodRefsResp : Str := "<refs>\n* [1] Paper A\n* [2] Paper B\n</refs>".toList

/-- Claim C3 counterexample: the Reference-Selection loop the pipeline
invokes is not capped at 3 attempts.  After three failing responses it has
produced no best-effort value and is still looping, and it consumes a fourth
response and returns that response's stripped value, which differs from the
best-effort extraction of the third response that a capped loop would have
returned. -/
theorem refs_canonical_not_capped :
    getRefsCanonical [badRefsResp, badRefsResp, badRefsResp] = none ∧
    getRefsCanonical [badRefsResp, badRefsResp, badRefsResp, goodRefsResp] =
      some (pyStrip goodRefsResp) ∧
    some (pyStrip goodRefsResp) ≠ some (extractFinalRefs (pyStrip badRefsResp)) := by
  decide

/-- Claim C3 (amended): the Reference-Selection implementation invoked by the
pipeline (referenceselection.py) loops with no attempt cap, returning the
first response that satisfies the contract however many attempts that takes,
while the sibling CoT variant (CoTreferenceselection.py, which the pipeline
does not invoke) caps at 3 attempts and on exhaustion returns the best-effort
extraction of the refs block from the final response. -/
theorem refs_retry_policy :
    (∀ (pre : List Str) (r : Str),
        (∀ x ∈ pre, verifyRefsFormat (pyStrip x) = false) →
        verifyRefsFormat (pyStrip r) = true →
        getRefsCanonical (pre ++ [r]) = some (pyStrip r)) ∧
    (∀ r0 r1 r2 : Str,
        verifyRefsFormatCoT (extractFinalRefs (pyStrip r0)) = false →
        verifyRefsFormatCoT (extractFinalRefs (pyStrip r1)) = false →
        verifyRefsFormatCoT (extractFinalRefs (pyStrip r2)) = false →
        getRefsCoT r0 r1 r2 = extractFinalRefs (pyStrip r2)) := by
  constructor
  · intro pre
    induction pre with
    | nil =>
      intro r _ hv
      show (if verifyRefsFormat (pyStrip r) then some (pyStrip r)
            else getRefsCanonical []) = _
      rw [if_pos hv]
    | cons x rest ih =>
      intro r hall hv
      have hx : verifyRefsFormat (pyStrip x) = false := hall x (List.mem_cons_self x rest)
      show (if verifyRefsFormat (pyStrip x) then some (pyStrip x)
            else getRefsCanonical (rest ++ [r])) = _
      rw [if_neg (by simp [hx])]
      exact ih r (fun y hy => hall y (List.mem_cons_of_mem x hy)) hv
  · intro r0 r1 r2 h0 h1 h2
    unfold getRefsCoT
    rw [if_neg (by simp [h0]), if_neg (by simp [h1]), if_neg (by simp [h2])]

/-- Witness for the amended Claim C3 theorem: the uncapped loop succeeds on a
fourth attempt, and the capped CoT loop falls back to the extraction of its
third response. -/
theorem refs_retry_policy_w :
    getRefsCanonical ([badRefsResp, badRefsResp, badRefsResp] ++ [goodRefsResp]) =
      some (pyStrip goodRefsResp) ∧
    getRefsCoT badRefsResp badRefsResp badRefsResp =
      extractFinalRefs (pyStrip badRefsResp) := by
  constructor
  · exact refs_retry_policy.1 [badRefsResp, badRefsResp, badRefsResp] goodRefsResp
      (by decide) (by decide)
  · exact refs_retry_policy.2 badRefsResp badRefsResp badRefsResp
      (by decide) (by decide) (by decide)

/- ## Final Assembler (src/outputxml.py) -/

/-- Decimal rendering of a section or subsection number. -/
def numStr (k : ℕ) : Str :=
  (Nat.repr k).toList

/-- The section heading element emitted by `_generate_xml`. -/
def secTitleLine (k : ℕ) (s : Str) : Str :=
  "<Section_".toList ++ numStr k ++ "_title>".toList ++ s ++
  "</Section_".toList ++ numStr k ++ "_title>".toList

/-- The subsection heading element emitted by `_generate_xml`. -/
def subTitleLine (k j : ℕ) (s : Str) : Str :=
  "<Section_".toList ++ numStr k ++ ".".toList ++ numStr j ++ "_title>".toList ++ s ++
  "</Section_".toList ++ numStr k ++ ".".toList ++ numStr j ++ "_title>".toList

/-- The subsection body element emitted by `_generate_xml`. -/
def subTextLine (k j : ℕ) (s : Str) : Str :=
  "<Section_".toList ++ numStr k ++ ".".toList ++ numStr j ++ "_text>".toList ++ s ++
  "</Section_".toList ++ numStr k ++ ".".toList ++ numStr j ++ "_text>".toList

/-- The inner subsection loop of `_generate_xml`: subsections of one section
in SubsectionMap order, numbered from `j`; each gets its heading element, and
a body element only when the ContentMap has an entry for it. -/
def subsecLoop (content : Str → Str → Option Str) (k : ℕ) (sec : Str) :
    List Str → ℕ → List Str
  | [], _ => []
  | sub :: rest, j =>
    subTitleLine k j sub ::
    ((match content sec sub with
      | some body => [subTextLine k j body]
      | none => []) ++ subsecLoop content k sec rest (j + 1))

/-- The section loop of `_generate_xml`: sections in outline order; a reserved
heading emits nothing and leaves the section counter untouched; any other
heading emits its heading element, its subsection block when the SubsectionMap
has an entry, and increments the counter. -/
def sectionLoop (subs : Str → Option (List Str)) (content : Str → Str → Option Str) :
    List Str → ℕ → List Str
  | [], _ => []
  | sec :: rest, k =>
    if isReserved sec then sectionLoop subs content rest k
    else
      secTitleLine k sec ::
      ((match subs sec with
        | some l => subsecLoop content k sec l 1
        | none => []) ++ sectionLoop subs content rest (k + 1))

/-- Modelled from the spec sentence for the Final Assembler: sections are
numbered consecutively from `k` over the outline with the reserved headings
already excluded, and within each section the subsections are numbered from 1
in SubsectionMap order with a heading and an optional body.  This definition
follows the spec's words; the claim compares it with `sectionLoop`, which is
translated from the source. -/
def specSectionNumbering (subs : Str → Option (List Str))
    (content : Str → Str → Option Str) : List Str → ℕ → List Str
  | [], _ => []
  | sec :: rest, k =>
    secTitleLine k sec ::
    ((match subs sec with
      | some l => subsecLoop content k sec l 1
      | none => []) ++ specSectionNumbering subs content rest (k + 1))

/-- Claim C7: the Final Assembler numbers sections consecutively in outline
order while reserved headings consume no section number (the source loop over
the raw outline equals the spec-side numbering of the outline with reserved
headings filtered out), and a subsection present in the SubsectionMap but
absent from the ContentMap yields its heading element with no body element. -/
theorem assembler_numbering :
    (∀ (subs : Str → Option (List Str)) (content : Str → Str → Option Str)
        (secs : List Str) (k : ℕ),
        sectionLoop subs content secs k =
          specSectionNumbering subs content
            (secs.filter (fun s => !(isReserved s))) k) ∧
    (∀ (content : Str → Str → Option Str) (k : ℕ) (sec sub : Str) (j : ℕ),
        content sec sub = none →
        subsecLoop content k sec [sub] j = [subTitleLine k j sub]) := by
  constructor
  · intro subs content secs
    induction secs with
    | nil => intro k; rfl
    | cons sec rest ih =>
      intro k
      by_cases hres : isReserved sec = true
      · have h1 : sectionLoop subs content (sec :: rest) k =
            sectionLoop subs content rest k := by
          show (if isReserved sec then sectionLoop subs content rest k
                else secTitleLine k sec ::
                  ((match subs sec with
                    | some l => subsecLoop content k sec l 1
                    | none => []) ++ sectionLoop subs content rest (k + 1))) = _
          rw [if_pos hres]
        have h2 : (sec :: rest).filter (fun s => !(isReserved s)) =
            rest.filter (fun s => !(isReserved s)) := by
          simp [List.filter_cons, hres]
        rw [h1, h2]
        exact ih k
      · have hres' : isReserved sec = false := by
          cases hb : isReserved sec
          · rfl
          · exact absurd hb hres
        have h1 : sectionLoop subs content (sec :: rest) k =
            secTitleLine k sec ::
              ((match subs sec with
                | some l => subsecLoop content k sec l 1
                | none => []) ++ sectionLoop subs content rest (k + 1)) := by
          show (if isReserved sec then sectionLoop subs content rest k
                else secTitleLine k sec ::
                  ((match subs sec with
                    | some l => subsecLoop content k sec l 1
                    | none => []) ++ sectionLoop subs content rest (k + 1))) = _
          rw [if_neg (by simp [hres'])]
        have h2 : (sec :: rest).filter (fun s => !(isReserved s)) =
            sec :: rest.filter (fun s => !(isReserved s)) := by
          simp [List.filter_cons, hres']
        rw [h1, h2]
        show _ = secTitleLine k sec ::
            ((match subs sec with
              | some l => subsecLoop content k sec l 1
              | none => []) ++
             specSectionNumbering subs content
               (rest.filter (fun s => !(isReserved s))) (k + 1))
        rw [ih (k + 1)]
  · intro content k sec sub j h
    show subTitleLine k j sub ::
        ((match content sec sub with
          | some body => [subTextLine k j body]
          | none => []) ++ subsecLoop content k sec [] (j + 1)) = _
    rw [h]
    rfl

def subsW : Str → Option (List Str) := fun s =>
  if s = "Methods".toList then some ["Alpha".toList, "Beta".toList] else none

def contentW : Str → Str → Option Str := fun s sub =>
  if s = "Methods".toList ∧ sub = "Alpha".toList then some "Body text".toList else none

def secsW : List Str :=
  ["Introduction".toList, "Methods".toList, "Conclusion".toList]

/-- Witness for the Claim C7 theorem at a concrete outline, subsection map
and content map, including a subsection with no content entry. -/
theorem assembler_numbering_w :
    sectionLoop subsW contentW secsW 1 =
      specSectionNumbering subsW contentW
        (secsW.filter (fun s => !(isReserved s))) 1 ∧
    subsecLoop contentW 1 "Methods".toList ["Beta".toList] 2 =
      [subTitleLine 1 2 "Beta".toList] := by
  constructor
  · exact assembler_numbering.1 subsW contentW secsW 1
  · exact assembler_numbering.2 contentW 1 "Methods".toList "Beta".toList 2 (by decide)

/-- `XMLPaperGenerator._read_title`: an unreadable or missing title file
yields the empty string; otherwise the title markers are removed and the
value is stripped. -/
def readTitleFile : Option TitleArtifact → Str
  | none => []
  | some a => pyStrip (reSubTags "<title>".toList "</title>".toList a.title)

/-- `XMLPaperGenerator._read_abstract`: an unreadable or missing abstract
file yields the empty string; otherwise the abstract markers are removed and
the value is stripped. -/
def readAbstractFile : Option AbstractArtifact → Str
  | none => []
  | some a => pyStrip (reSubTags "<abstract>".toList "</abstract>".toList a.abstract)

/-- `XMLPaperGenerator._read_sections`: an unreadable or missing outline file
yields no sections; otherwise outline tag lines are filtered out. -/
def readSectionsFile : Option OutlineArtifact → List Str
  | none => []
  | some o => o.sections.filter (fun s => !(startsW "<outline>" s || startsW "</outline>" s))

/-- `XMLPaperGenerator._read_subsections`: an unreadable or missing
subsections file yields the empty map. -/
def readSubsFile (sb : Option (Str → Option (List Str))) : Str → Option (List Str) :=
  match sb with
  | none => fun _ => none
  | some m => m

/-- `XMLPaperGenerator._read_content`: an unreadable or missing content file
yields the empty map. -/
def readContentFile (ct : Option (Str → Str → Option Str)) : Str → Str → Option Str :=
  match ct with
  | none => fun _ _ => none
  | some m => m

/-- One entry of the raw corpus record's `reference_content` list. -/
structure RefContent where
  reference_num : Str
  reference_abstract : Str

/-- The raw corpus (train) record read by `_read_references`. -/
structure TrainRecord where
  reference : List Str
  reference_content : List RefContent

/-- Lookup in the dict built by the comprehension over `reference_content`:
with duplicate keys the later entry wins, as in a Python dict comprehension. -/
def lookupLast (m : List RefContent) (key : Str) : Option Str :=
  match m with
  | [] => none
  | item :: rest =>
    match lookupLast rest key with
    | some v => some v
    | none => if item.reference_num == key then some item.reference_abstract else none

/-- The positional tag `[n]` used by `_read_references` to match a reference
with its abstract. -/
def natTag (k : ℕ) : Str :=
  '[' :: (numStr k ++ [']'])

/-- The loop of `_read_references` that appends an abstract line to each
reference whose positional tag has a non-empty entry in the content map. -/
def buildRefList (cmap : List RefContent) : List Str → ℕ → List Str
  | [], _ => []
  | ref :: rest, k =>
    (match lookupLast cmap (natTag k) with
     | some ab => if ab.isEmpty then ref else ref ++ ('\n' :: "Abstract: ".toList) ++ ab
     | none => ref) :: buildRefList cmap rest (k + 1)

/-- `XMLPaperGenerator._read_references`: an unreadable or missing train file
yields the empty string; with no `reference_content` entries the references
are joined as-is; otherwise each reference first receives its abstract line. -/
def readReferencesFile : Option TrainRecord → Str
  | none => []
  | some d =>
    if d.reference_content.isEmpty then List.intercalate "\n\n".toList d.reference
    else List.intercalate "\n\n".toList (buildRefList d.reference_content d.reference 1)

/-- The line list built by `XMLPaperGenerator._generate_xml`, in order:
header, opening tag, title element, abstract element, the section blocks, the
references block and the closing tag. -/
def xmlLines (t : Option TitleArtifact) (ab : Option AbstractArtifact)
    (o : Option OutlineArtifact) (sb : Option (Str → Option (List Str)))
    (ct : Option (Str → Str → Option Str)) (tr : Option TrainRecord) : List Str :=
  "<?xml version=\"1.0\" encoding=\"UTF-8\"?>".toList ::
  "<Literature>".toList ::
  ("<Title>".toList ++ readTitleFile t ++ "</Title>".toList) ::
  ("<Abstract>".toList ++ readAbstractFile ab ++ "</Abstract>".toList) ::
  (sectionLoop (readSubsFile sb) (readContentFile ct) (readSectionsFile o) 1 ++
   ("<References>".toList :: readReferencesFile tr ::
    "</References>".toList :: ["</Literature>".toList]))

/-- Claim C6: whatever the other artifact files hold, when the Abstract
artifact file is missing the Final Assembler still produces its document and
that document contains the empty abstract element. -/
theorem assembler_missing_abstract :
    ∀ (t : Option TitleArtifact) (o : Option OutlineArtifact)
      (sb : Option (Str → Option (List Str))) (ct : Option (Str → Str → Option Str))
      (tr : Option TrainRecord),
      "<Abstract></Abstract>".toList ∈ xmlLines t none o sb ct tr := by
  intro t o sb ct tr
  have he : "<Abstract></Abstract>".toList =
      "<Abstract>".toList ++ readAbstractFile none ++ "</Abstract>".toList := by
    decide
  unfold xmlLines
  rw [he]
  exact List.mem_cons_of_mem _ (List.mem_cons_of_mem _
    (List.mem_cons_of_mem _ (List.mem_cons_self _ _)))

/-- The artifact files of one paper as the Final Assembler sees them; a
`none` field models a missing or unreadable file. -/
structure AssemblerFiles where
  titleFile : Option TitleArtifact
  abstractFile : Option AbstractArtifact
  outlineFile : Option OutlineArtifact
  subsFile : Option (Str → Option (List Str))
  contentFile : Option (Str → Str → Option Str)
  trainFile : Option TrainRecord

/-- The full document produced by `_generate_xml`: the lines joined by
newlines. -/
def assembleXML (f : AssemblerFiles) : Str :=
  List.intercalate ['\n']
    (xmlLines f.titleFile f.abstractFile f.outlineFile f.subsFile f.contentFile f.trainFile)

/-- Claim C8: the Final Assembler is deterministic.  It is embedded as a pure
function of the artifact file contents alone, with no model call and no other
input, so two runs over equal file contents produce byte-identical output. -/
theorem assembler_deterministic :
    ∀ f g : AssemblerFiles, f = g → assembleXML f = assembleXML g := by
  intro f g h
  rw [h]

def filesW : AssemblerFiles :=
  { titleFile := some { paper_id := "9901.001".toList, title := c1Response },
    abstractFile := none,
    outlineFile := some { paper_id := "9901.001".toList,
                          sections := outlineSections (pyStrip c4Ok) },
    subsFile := some subsW,
    contentFile := some contentW,
    trainFile := some { reference := ["[1] Paper A".toList], reference_content := [] } }

/-- Witness for the Claim C8 theorem at a concrete set of artifact files. -/
theorem assembler_deterministic_w :
    assembleXML filesW = assembleXML filesW :=
  assembler_deterministic filesW filesW rfl

/- ## Marker-extraction idempotence (claim C9) -/

/-- The regex-based title extraction used at read time by `_read_title` in
outputxml.py and by the title readers of the downstream stages: remove all
marker occurrences, then strip. -/
def readTitleExtract (s : Str) : Str :=
  pyStrip (reSubTags "<title>".toList "</title>".toList s)

/-- The fixed-offset slice extraction `subsections[13:-14].strip()` used by
`SubsectionAgent.process_papers`. -/
def subsectionSliceExtract (s : Str) : Str :=
  pyStrip (pySlice 13 14 s)

/-- Claim C9 counterexample: the fixed-offset slice extractions are not
idempotent.  Applying `content[9:-10].strip()` (here `contentText`) to an
already-extracted non-empty value chops a further 19 characters, and likewise
for the subsections slice, so re-applying either extraction changes the
value. -/
theorem slice_extract_not_idem :
    contentText (contentText ("<content>This is the body of the section here</content>".toList)) ≠
      contentText ("<content>This is the body of the section here</content>".toList) ∧
    subsectionSliceExtract (subsectionSliceExtract
        ("<subsections>* Alpha Topic\n* Beta Topic\n* Gamma Topic</subsections>".toList)) ≠
      subsectionSliceExtract
        ("<subsections>* Alpha Topic\n* Beta Topic\n* Gamma Topic</subsections>".toList) := by
  decide

/-- Aid for the idempotence claim: the two-alternative tag deletion leaves a
string unchanged when neither alternative occurs in it, at any sufficient
fuel. -/
theorem reSubTagsFuel_noocc (t1 t2 : Str) :
    ∀ (fuel : ℕ) (s : Str), hasSub t1 s = false → hasSub t2 s = false →
      s.length ≤ fuel → reSubTagsFuel t1 t2 fuel s = s := by
  intro fuel
  induction fuel with
  | zero =>
    intro s h1 h2 hl
    cases s with
    | nil => rfl
    | cons c rest => simp at hl
  | succ n ih =>
    intro s h1 h2 hl
    cases s with
    | nil => rfl
    | cons c rest =>
      have hp1 : t1.isPrefixOf (c :: rest) = false := by
        cases hb : t1.isPrefixOf (c :: rest)
        · rfl
        · exfalso
          have ht : hasSub t1 (c :: rest) = true := by
            show (t1.isPrefixOf (c :: rest) || hasSub t1 rest) = true
            rw [hb]
            rfl
          rw [ht] at h1
          exact Bool.noConfusion h1
      have hr1 : hasSub t1 rest = false := by
        cases hb : hasSub t1 rest
        · rfl
        · exfalso
          have ht : hasSub t1 (c :: rest) = true := by
            show (t1.isPrefixOf (c :: rest) || hasSub t1 rest) = true
            rw [hb, Bool.or_true]
          rw [ht] at h1
          exact Bool.noConfusion h1
      have hp2 : t2.isPrefixOf (c :: rest) = false := by
        cases hb : t2.isPrefixOf (c :: rest)
        · rfl
        · exfalso
          have ht : hasSub t2 (c :: rest) = true := by
            show (t2.isPrefixOf (c :: rest) || hasSub t2 rest) = true
            rw [hb]
            rfl
          rw [ht] at h2
          exact Bool.noConfusion h2
      have hr2 : hasSub t2 rest = false := by
        cases hb : hasSub t2 rest
        · rfl
        · exfalso
          have ht : hasSub t2 (c :: rest) = true := by
            show (t2.isPrefixOf (c :: rest) || hasSub t2 rest) = true
            rw [hb, Bool.or_true]
          rw [ht] at h2
          exact Bool.noConfusion h2
      have hlen : rest.length ≤ n := by
        rw [List.length_cons] at hl
        exact Nat.le_of_succ_le_succ hl
      show (if t1 ≠ [] ∧ t1.isPrefixOf (c :: rest) then
              reSubTagsFuel t1 t2 n ((c :: rest).drop t1.length)
            else if t2 ≠ [] ∧ t2.isPrefixOf (c :: rest) then
              reSubTagsFuel t1 t2 n ((c :: rest).drop t2.length)
            else c :: reSubTagsFuel t1 t2 n rest) = c :: rest
      rw [if_neg (fun hc => absurd hc.2 (by simp [hp1])),
          if_neg (fun hc => absurd hc.2 (by simp [hp2]))]
      exact congrArg (c :: ·) (ih rest hr1 hr2 hlen)

/-- Aid for the idempotence claim: the tag deletion is the identity on
marker-free strings. -/
theorem reSubTags_noocc (t1 t2 s : Str) (h1 : hasSub t1 s = false)
    (h2 : hasSub t2 s = false) : reSubTags t1 t2 s = s :=
  reSubTagsFuel_noocc t1 t2 s.length s h1 h2 (le_refl _)

/-- Claim C9 (amended): the regex-based marker extraction is a no-op on every
value that is already stripped and contains no marker occurrence, which covers
re-applying it to a cleanly extracted title; the fixed-offset slice-based
extractions are not idempotent and truncate an already-extracted non-empty
value further. -/
theorem regex_extract_noop (v : Str)
    (h1 : hasSub "<title>".toList v = false)
    (h2 : hasSub "</title>".toList v = false)
    (h3 : pyStrip v = v) :
    readTitleExtract v = v := by
  unfold readTitleExtract
  rw [reSubTags_noocc _ _ _ h1 h2, h3]

/-- Witness for the amended Claim C9 theorem on a bare title value. -/
theorem regex_extract_noop_w :
    readTitleExtract "A Survey of X".toList = "A Survey of X".toList :=
  regex_extract_noop "A Survey of X".toList (by decide) (by decide) (by decide)
